import Mathlib

/-
  Shallow embedding of the rail-score-js request/response/error pipeline.

  Sources embedded:
  - src/errors.ts        : the RailScoreError class hierarchy (as a sum type)
  - src/client.ts        : RailScore constructor, request, handleError
  - src/generation.ts    : Generation.generate local validation

  JavaScript semantics modelled explicitly: truthiness (used by the `||`
  defaulting idiom), `typeof x === 'object'` (true for objects, arrays and
  null), property access on non-objects yielding undefined (Option.none),
  and template-string coercion of interpolated values.  JSON numbers are
  modelled as rationals; JS decimal formatting of non-integral numbers is
  not modelled (no claim exercises it).
-/

/-- A JSON value, the result of a successful `response.json()` call. -/
inductive Json where
  | null : Json
  | bool (b : Bool) : Json
  | num (q : Rat) : Json
  | str (s : String) : Json
  | arr (elems : List Json) : Json
  | obj (fields : List (String × Json)) : Json
deriving Repr

/-- JavaScript truthiness of a JSON value: null, false, 0 and "" are falsy;
objects and arrays are always truthy. -/
def truthy : Json → Bool
  | .null => false
  | .bool b => b
  | .num q => decide (q ≠ 0)
  | .str s => decide (s ≠ "")
  | .arr _ => true
  | .obj _ => true

/-- JavaScript `typeof x === 'object'`: true for objects, arrays and null. -/
def typeofObject : Json → Bool
  | .null => true
  | .arr _ => true
  | .obj _ => true
  | _ => false

/-- JavaScript property access `x[key]` for the keys the classifier reads:
only object envelopes carry them; on anything else the access yields
undefined, modelled as none. -/
def getField : Json → String → Option Json
  | .obj kvs, key => (kvs.find? (fun p => p.1 == key)).map (fun p => p.2)
  | _, _ => none

/-- JavaScript `a || b` where `a` is a possibly-undefined property value:
returns `a` when it is present and truthy, otherwise `b`. -/
def jsOr (v : Option Json) (d : Json) : Json :=
  match v with
  | some j => if truthy j then j else d
  | none => d

/-- JS string coercion for integral rationals; non-integral decimal float
formatting is out of scope (no claim depends on it). -/
def ratToJsString (q : Rat) : String :=
  if q.den = 1 then toString q.num else toString q

mutual
/-- JavaScript `String(x)` coercion of a JSON value, as used by template
strings: arrays join their elements with commas, objects print as
"[object Object]". -/
def jsToString : Json → String
  | .null => "null"
  | .bool true => "true"
  | .bool false => "false"
  | .num q => ratToJsString q
  | .str s => s
  | .arr xs => jsArrJoin xs
  | .obj _ => "[object Object]"

/-- Array.prototype.join(",") with String() coercion of each element;
null elements join as the empty string. -/
def jsArrJoin : List Json → String
  | [] => ""
  | x :: xs =>
      (match x with
        | Json.null => ""
        | j => jsToString j)
      ++ (match xs with
        | [] => ""
        | _ => "," ++ jsArrJoin xs)
end

/-- An arbitrary JavaScript Error value as seen by the catch block in
`request`: only its name and message are inspected. -/
structure JsErrorData where
  name : String
  message : String
deriving Repr, DecidableEq

/-- The RailScoreError hierarchy of src/errors.ts as a sum type.  Fields
typed `Json` are the any-typed values the classifier passes to the
subclass constructors; `String` fields are strings built by the code
itself. -/
inductive RailScoreError where
  | railScoreError (message : String) : RailScoreError
  | authenticationError (message : Json) : RailScoreError
  | insufficientCreditsError (balance required : Json) : RailScoreError
  | validationError (message : Json) (field : Option Json) : RailScoreError
  | rateLimitError (retryAfter : Json) : RailScoreError
  | timeoutError (message : String) : RailScoreError
  | networkError (message : String) (originalError : Option JsErrorData) : RailScoreError
  | serverError (message : Json) (statusCode : Nat) : RailScoreError
deriving Repr

/-- The discriminant of the error taxonomy (which subclass a value is). -/
inductive ErrKind where
  | base | authentication | insufficientCredits | validation
  | rateLimit | timeout | network | server
deriving Repr, DecidableEq

/-- Which taxonomy variant a RailScoreError value belongs to. -/
def errKind : RailScoreError → ErrKind
  | .railScoreError _ => .base
  | .authenticationError _ => .authentication
  | .insufficientCreditsError _ _ => .insufficientCredits
  | .validationError _ _ => .validation
  | .rateLimitError _ => .rateLimit
  | .timeoutError _ => .timeout
  | .networkError _ _ => .network
  | .serverError _ _ => .server

/-- The envelope `{ message: response.statusText }` substituted by
handleError when the body is unusable. -/
def syntheticEnvelope (statusText : String) : Json :=
  Json.obj [("message", Json.str statusText)]

/-- Lines 138-149 of src/client.ts: parse the body (a parse failure gives
the synthetic envelope), then replace the parsed value by the synthetic
envelope when it is falsy or not of JS type object.  `parsed` is the
outcome of `await response.json()` (none = the parse threw). -/
def effectiveEnvelope (parsed : Option Json) (statusText : String) : Json :=
  let errorData :=
    match parsed with
    | none => syntheticEnvelope statusText
    | some j => j
  if !truthy errorData || !typeofObject errorData then syntheticEnvelope statusText
  else errorData

/-- Line 151 of src/client.ts: `errorData.message || errorData.error ||
'Unknown error'`. -/
def extractMessage (env : Json) : Json :=
  jsOr (getField env "message") (jsOr (getField env "error") (Json.str "Unknown error"))

/-- handleError of src/client.ts (lines 136-180): the error classifier.
The switch on the numeric status is translated as an if-chain (a JS switch
compares the scrutinee against each case label with strict equality in
order). -/
def handleError (status : Nat) (parsed : Option Json) (statusText : String) : RailScoreError :=
  let errorData := effectiveEnvelope parsed statusText
  let message := extractMessage errorData
  if status = 401 then
    .authenticationError message
  else if status = 402 then
    .insufficientCreditsError
      (jsOr (getField errorData "balance") (Json.num 0))
      (jsOr (getField errorData "required") (Json.num 0))
  else if status = 422 then
    .validationError message (getField errorData "field")
  else if status = 429 then
    .rateLimitError (jsOr (getField errorData "retry_after") (Json.num 60))
  else if status = 500 ∨ status = 502 ∨ status = 503 ∨ status = 504 then
    .serverError message status
  else
    .railScoreError ("Request failed with status " ++ toString status ++ ": " ++ jsToString message)

/-- `response.ok` of fetch: status in the 2xx range. -/
def responseOk (status : Nat) : Bool :=
  decide (200 ≤ status) && decide (status < 300)

/-- The outcome of the `fetch` call made by `request`: either a response
arrived (carrying the status, the status text, and what `response.json()`
would produce on its body), or fetch rejected with a JS error (name
"AbortError" when the timeout controller aborted the call, some other
name on a transport failure). -/
inductive FetchOutcome where
  | response (status : Nat) (statusText : String) (jsonResult : Except JsErrorData Json) : FetchOutcome
  | reject (error : JsErrorData) : FetchOutcome
deriving Repr

/-- The catch block of `request` (lines 108-126 of src/client.ts) applied
to an error that is not a RailScoreError instance: AbortError becomes a
TimeoutError, anything else becomes a NetworkError wrapping the cause. -/
def catchNonRail (timeoutMs : Rat) (e : JsErrorData) : RailScoreError :=
  if e.name = "AbortError" then
    .timeoutError ("Request timeout after " ++ ratToJsString timeoutMs ++ "ms")
  else
    .networkError ("Network request failed: " ++ e.message) (some e)

/-- request of src/client.ts (lines 79-127), as a function of the fetch
outcome.  For a non-2xx response, handleError throws a RailScoreError,
which the catch block re-throws unchanged (instanceof check); handleError
parses the body itself, swallowing a parse failure (Except.toOption).
For a 2xx response the parsed body is returned; if its parse throws, the
failure lands in the same catch block as a transport error would. -/
def request (timeoutMs : Rat) (outcome : FetchOutcome) : Except RailScoreError Json :=
  match outcome with
  | .reject e => .error (catchNonRail timeoutMs e)
  | .response status statusText jsonResult =>
      if responseOk status then
        match jsonResult with
        | .ok body => .ok body
        | .error e => .error (catchNonRail timeoutMs e)
      else
        .error (handleError status jsonResult.toOption statusText)

/-- RailScoreConfig of src/types.ts: optional fields are none when omitted. -/
structure RailScoreConfig where
  apiKey : String
  baseUrl : Option String := none
  timeout : Option Rat := none
deriving Repr, DecidableEq

/-- The private state the RailScore constructor stores. -/
structure RailScoreClient where
  apiKey : String
  baseUrl : String
  timeout : Rat
deriving Repr, DecidableEq

/-- JS `a || b` for an optional string field: the empty string is falsy. -/
def jsOrStr (v : Option String) (d : String) : String :=
  match v with
  | some s => if s = "" then d else s
  | none => d

/-- JS `a || b` for an optional numeric field: 0 is falsy. -/
def jsOrNum (v : Option Rat) (d : Rat) : Rat :=
  match v with
  | some x => if x = 0 then d else x
  | none => d

/-- The RailScore constructor (lines 55-68 of src/client.ts): an empty
apiKey (the only falsy string) throws ValidationError; baseUrl and
timeout default through `||`. -/
def mkRailScore (config : RailScoreConfig) : Except RailScoreError RailScoreClient :=
  if config.apiKey = "" then
    .error (.validationError (Json.str "API key is required") none)
  else
    .ok { apiKey := config.apiKey,
          baseUrl := jsOrStr config.baseUrl "https://api.responsibleailabs.ai",
          timeout := jsOrNum config.timeout 60000 }

/-- GenerationOptions of src/types.ts (the fields generate reads). -/
structure GenerationOptions where
  targetScore : Option Rat := none
  dimensions : Option (List String) := none
  maxIterations : Option Rat := none
  temperature : Option Rat := none
deriving Repr, DecidableEq

/-- The characters JavaScript String.prototype.trim removes (WhiteSpace and
LineTerminator); the exotic Unicode space separators are not listed, no
claim exercises them. -/
def jsWhitespace (c : Char) : Bool :=
  c = ' ' ∨ c = '\t' ∨ c = '\n' ∨ c = '\r' ∨ c = '\x0b' ∨ c = '\x0c' ∨
  c = '\u00A0' ∨ c = '\uFEFF'

/-- JavaScript String.prototype.trim: strip leading and trailing
whitespace. -/
def jsTrim (s : String) : String :=
  String.mk ((((s.data.dropWhile jsWhitespace).reverse).dropWhile jsWhitespace).reverse)

/-- The pattern `options?.field !== undefined && (field < lo || field > hi)`
used by the generate validations. -/
def optOutside (v : Option Rat) (lo hi : Rat) : Bool :=
  match v with
  | some x => decide (x < lo) || decide (hi < x)
  | none => false

/-- Generation.generate of src/generation.ts (lines 41-80): the local
validations in source order, then the network request.  The fetch outcome
the request would see is passed as a parameter; the validations fire
before it is consulted. -/
def generate (prompt : String) (options : Option GenerationOptions)
    (timeoutMs : Rat) (outcome : FetchOutcome) : Except RailScoreError Json :=
  if prompt = "" ∨ (jsTrim prompt).length = 0 then
    .error (.validationError (Json.str "Prompt cannot be empty") none)
  else if optOutside (options.bind GenerationOptions.targetScore) 0 10 then
    .error (.validationError (Json.str "Target score must be between 0 and 10") none)
  else if optOutside (options.bind GenerationOptions.maxIterations) 1 10 then
    .error (.validationError (Json.str "Max iterations must be between 1 and 10") none)
  else if optOutside (options.bind GenerationOptions.temperature) 0 2 then
    .error (.validationError (Json.str "Temperature must be between 0 and 2") none)
  else
    request timeoutMs outcome

/-! ## Claim theorems -/

/-- C1: for every non-2xx status and every raw body, the classifier
dispatches purely on the numeric status (the error kind produced is a
function of the status alone), and returns exactly the specified error
with its extracted fields: 401 Authentication(message), 402
InsufficientCredits(balance, required), 422 Validation(message, field),
429 RateLimit(retryAfterSeconds), 500/502/503/504 Server(message,
statusCode = status), and any other non-2xx status the generic error
with message "Request failed with status {status}: {message}". -/
theorem classify_dispatch_table (status : Nat) (body body' : Option Json) (st st' : String) :
    errKind (handleError status body st) = errKind (handleError status body' st')
    ∧ handleError 401 body st
        = .authenticationError (extractMessage (effectiveEnvelope body st))
    ∧ handleError 402 body st
        = .insufficientCreditsError
            (jsOr (getField (effectiveEnvelope body st) "balance") (Json.num 0))
            (jsOr (getField (effectiveEnvelope body st) "required") (Json.num 0))
    ∧ handleError 422 body st
        = .validationError (extractMessage (effectiveEnvelope body st))
            (getField (effectiveEnvelope body st) "field")
    ∧ handleError 429 body st
        = .rateLimitError (jsOr (getField (effectiveEnvelope body st) "retry_after") (Json.num 60))
    ∧ (∀ s, s = 500 ∨ s = 502 ∨ s = 503 ∨ s = 504 →
        handleError s body st = .serverError (extractMessage (effectiveEnvelope body st)) s)
    ∧ (responseOk status = false →
        status ≠ 401 → status ≠ 402 → status ≠ 422 → status ≠ 429 →
        status ≠ 500 → status ≠ 502 → status ≠ 503 → status ≠ 504 →
        handleError status body st
          = .railScoreError ("Request failed with status " ++ toString status ++ ": "
              ++ jsToString (extractMessage (effectiveEnvelope body st)))) := by
  refine ⟨?_, ?_, ?_, ?_, ?_, ?_, ?_⟩
  · simp only [handleError]
    split_ifs <;> rfl
  · simp [handleError]
  · simp [handleError]
  · simp [handleError]
  · simp [handleError]
  · intro s hs
    rcases hs with h | h | h | h <;> subst h <;> simp [handleError]
  · intro _ h1 h2 h3 h4 h5 h6 h7 h8
    simp [handleError, h1, h2, h3, h4, h5, h6, h7, h8]

/-- C1 witness: concrete classifications through the dispatch-table
theorem, at status 503 (Server) and at status 403 (generic). -/
theorem classify_dispatch_table_witness :
    handleError 503 none "Service Unavailable"
      = .serverError (Json.str "Service Unavailable") 503
    ∧ handleError 403 none "Forbidden"
      = .railScoreError "Request failed with status 403: Forbidden" := by
  constructor
  · have h := (classify_dispatch_table 503 (none : Option Json) none
      "Service Unavailable" "Service Unavailable").2.2.2.2.2.1 503 (by norm_num)
    rw [h]
    rfl
  · have h := (classify_dispatch_table 403 (none : Option Json) none
      "Forbidden" "Forbidden").2.2.2.2.2.2 (by decide) (by decide) (by decide)
      (by decide) (by decide) (by decide) (by decide) (by decide) (by decide)
    rw [h]
    simp [extractMessage, effectiveEnvelope, syntheticEnvelope, getField, jsOr,
      truthy, typeofObject, jsToString]
    rfl

/-- C2: for every response whose status is not 2xx, `request` never
resolves: it raises exactly the error the classifier produces for that
status; and it resolves only on a 2xx response whose body parsed. -/
theorem execute_non2xx_raises (t : Rat) :
    (∀ status statusText jsonResult, responseOk status = false →
        request t (FetchOutcome.response status statusText jsonResult)
          = .error (handleError status jsonResult.toOption statusText))
    ∧ (∀ outcome body, request t outcome = .ok body →
        ∃ status statusText, responseOk status = true
          ∧ outcome = FetchOutcome.response status statusText (.ok body)) := by
  constructor
  · intro status statusText jsonResult h
    simp [request, h]
  · intro outcome body h
    cases outcome with
    | reject e => simp [request] at h
    | response status statusText jsonResult =>
        by_cases hok : responseOk status
        · cases jsonResult with
          | ok b =>
              simp [request, hok] at h
              exact ⟨status, statusText, hok, by rw [h]⟩
          | error e => simp [request, hok, catchNonRail] at h
        · simp [request, hok] at h

/-- C2 witness: a 404 response raises the classified error; a parsed 2xx
response is the only way to resolve. -/
theorem execute_non2xx_raises_witness :
    request 60000 (FetchOutcome.response 404 "Not Found" (Except.error ⟨"FetchError", "bad"⟩))
      = .error (handleError 404 none "Not Found")
    ∧ ∃ status statusText, responseOk status = true
        ∧ (FetchOutcome.response 200 "OK" (Except.ok (Json.obj [])) : FetchOutcome)
          = FetchOutcome.response status statusText (.ok (Json.obj [])) := by
  constructor
  · exact (execute_non2xx_raises 60000).1 404 "Not Found"
      (Except.error ⟨"FetchError", "bad"⟩) (by decide)
  · exact (execute_non2xx_raises 60000).2
      (FetchOutcome.response 200 "OK" (Except.ok (Json.obj []))) (Json.obj []) rfl

/-- C3 counterexample: at status 200 (a 2xx status) with a body whose JSON
parse fails, `request` raises a Network error, one of the classified
error kinds of the taxonomy — contradicting the claim that a
malformed-but-2xx body surfaces outside the error taxonomy and that
`request` never raises a classified error for 2xx. -/
theorem execute_2xx_parse_failure_counterexample :
    request 60000 (FetchOutcome.response 200 "OK"
        (Except.error ⟨"FetchError", "invalid json response body"⟩))
      = .error (RailScoreError.networkError "Network request failed: invalid json response body"
          (some ⟨"FetchError", "invalid json response body"⟩))
    ∧ errKind (RailScoreError.networkError "Network request failed: invalid json response body"
          (some ⟨"FetchError", "invalid json response body"⟩)) = ErrKind.network :=
  ⟨rfl, rfl⟩

/-- C3 amended: for a 2xx response whose body parses, `request` returns the
parsed body unchanged and never raises a classified error; a 2xx response
whose body fails to parse is caught by the generic catch block and raised
as a Network error wrapping the parse failure (a classified kind), not
surfaced as a bare parse failure outside the taxonomy. -/
theorem execute_2xx_behavior (t : Rat) (status : Nat) (statusText : String) :
    (∀ body, responseOk status = true →
        request t (FetchOutcome.response status statusText (Except.ok body)) = .ok body)
    ∧ (∀ e : JsErrorData, responseOk status = true → e.name ≠ "AbortError" →
        request t (FetchOutcome.response status statusText (Except.error e))
          = .error (.networkError ("Network request failed: " ++ e.message) (some e))) := by
  constructor
  · intro body h
    simp [request, h]
  · intro e h hn
    simp [request, h, catchNonRail, hn]

/-- C3 amended witness: a parsed 2xx body is returned verbatim. -/
theorem execute_2xx_behavior_witness :
    request 60000 (FetchOutcome.response 200 "OK"
        (Except.ok (Json.obj [("ok", Json.bool true), ("version", Json.str "1.0.0")])))
      = .ok (Json.obj [("ok", Json.bool true), ("version", Json.str "1.0.0")]) :=
  (execute_2xx_behavior 60000 200 "OK").1
    (Json.obj [("ok", Json.bool true), ("version", Json.str "1.0.0")]) (by decide)

/-- C4 counterexample: a JSON array body is NOT replaced by the synthetic
envelope: it passes the `typeof errorData === 'object'` check, so its
field lookups all yield undefined and the extracted message falls back to
"Unknown error" instead of the HTTP status text the claim predicts. -/
theorem envelope_array_counterexample :
    effectiveEnvelope (some (Json.arr [])) "Unauthorized" ≠ syntheticEnvelope "Unauthorized"
    ∧ handleError 401 (some (Json.arr [])) "Unauthorized"
        = .authenticationError (Json.str "Unknown error")
    ∧ handleError 401 none "Unauthorized"
        = .authenticationError (Json.str "Unauthorized")
    ∧ Json.str "Unknown error" ≠ Json.str "Unauthorized" := by
  refine ⟨?_, rfl, rfl, ?_⟩
  · intro h
    simp [effectiveEnvelope, syntheticEnvelope, truthy, typeofObject] at h
  · intro h
    injection h with h1
    exact absurd h1 (by decide)

/-- C4 amended: the classifier substitutes the synthetic envelope
`{message: statusText}` when the body parse fails or the parsed value is
a string, a number, a boolean or null; a parsed object is kept, and — in
divergence from the claim — a parsed JSON array is ALSO kept (it is of JS
type object), so its message extraction defaults to "Unknown error". -/
theorem envelope_normalization (st : String) :
    effectiveEnvelope none st = syntheticEnvelope st
    ∧ effectiveEnvelope (some Json.null) st = syntheticEnvelope st
    ∧ (∀ b, effectiveEnvelope (some (Json.bool b)) st = syntheticEnvelope st)
    ∧ (∀ q, effectiveEnvelope (some (Json.num q)) st = syntheticEnvelope st)
    ∧ (∀ s, effectiveEnvelope (some (Json.str s)) st = syntheticEnvelope st)
    ∧ (∀ kvs, effectiveEnvelope (some (Json.obj kvs)) st = Json.obj kvs)
    ∧ (∀ xs, effectiveEnvelope (some (Json.arr xs)) st = Json.arr xs)
    ∧ (∀ xs, extractMessage (Json.arr xs) = Json.str "Unknown error") := by
  refine ⟨rfl, rfl, ?_, ?_, ?_, ?_, ?_, ?_⟩
  · intro b
    cases b <;> rfl
  · intro q
    simp [effectiveEnvelope, truthy, typeofObject]
  · intro s
    simp [effectiveEnvelope, truthy, typeofObject]
  · intro kvs
    simp [effectiveEnvelope, truthy, typeofObject]
  · intro xs
    simp [effectiveEnvelope, truthy, typeofObject]
  · intro xs
    simp [extractMessage, getField, jsOr]

/-- C5 counterexample: an envelope with `retry_after` present and equal to
0 does not yield 0 — the `||` defaulting treats 0 as falsy, so the
classifier returns 60. -/
theorem rateLimit_zero_counterexample :
    handleError 429 (some (Json.obj [("retry_after", Json.num 0)])) "Too Many Requests"
      = .rateLimitError (Json.num 60)
    ∧ Json.num 60 ≠ Json.num 0 := by
  refine ⟨rfl, ?_⟩
  intro h
  injection h with h1
  exact absurd h1 (by norm_num)

/-- C5 amended: for status 429, an envelope whose `retry_after` is present
and truthy (in particular any nonzero number) yields exactly that value;
an absent OR falsy (null, 0, empty-string, false) `retry_after` defaults
to 60. -/
theorem rateLimit_retryAfter_truthy (body : Option Json) (st : String) :
    (∀ v, getField (effectiveEnvelope body st) "retry_after" = some v → truthy v = true →
        handleError 429 body st = .rateLimitError v)
    ∧ (∀ v, getField (effectiveEnvelope body st) "retry_after" = some v → truthy v = false →
        handleError 429 body st = .rateLimitError (Json.num 60))
    ∧ (getField (effectiveEnvelope body st) "retry_after" = none →
        handleError 429 body st = .rateLimitError (Json.num 60)) := by
  refine ⟨?_, ?_, ?_⟩
  · intro v hv ht
    simp [handleError, jsOr, hv, ht]
  · intro v hv ht
    simp [handleError, jsOr, hv, ht]
  · intro hv
    simp [handleError, jsOr, hv]

/-- C5 amended witness: the spec's end-to-end scenario C — status 429 with
body `{"retry_after":30}` classifies to RateLimit with retryAfter 30. -/
theorem rateLimit_retryAfter_truthy_witness :
    handleError 429 (some (Json.obj [("retry_after", Json.num 30)])) "Too Many Requests"
      = .rateLimitError (Json.num 30) :=
  (rateLimit_retryAfter_truthy (some (Json.obj [("retry_after", Json.num 30)]))
      "Too Many Requests").1 (Json.num 30) rfl (by norm_num [truthy])

/-- C6: when the transport call rejects with any error not named
AbortError (connection refused, DNS, TLS, ...), `request` raises a
Network error that wraps the original cause — not a Timeout error; a
Timeout error is raised exactly when the rejection is the abort
(timeout) firing. -/
theorem transport_failure_network (t : Rat) (e : JsErrorData) :
    (e.name ≠ "AbortError" →
        request t (FetchOutcome.reject e)
          = .error (.networkError ("Network request failed: " ++ e.message) (some e)))
    ∧ (e.name = "AbortError" →
        request t (FetchOutcome.reject e)
          = .error (.timeoutError ("Request timeout after " ++ ratToJsString t ++ "ms"))) := by
  constructor <;> intro h <;> simp [request, catchNonRail, h]

/-- C6 witness: a connection-refused rejection becomes a Network error
wrapping the cause; an abort becomes a Timeout error. -/
theorem transport_failure_network_witness :
    request 60000 (FetchOutcome.reject ⟨"FetchError", "connect ECONNREFUSED"⟩)
      = .error (.networkError "Network request failed: connect ECONNREFUSED"
          (some ⟨"FetchError", "connect ECONNREFUSED"⟩))
    ∧ request 60000 (FetchOutcome.reject ⟨"AbortError", "The operation was aborted"⟩)
      = .error (.timeoutError "Request timeout after 60000ms") := by
  constructor
  · exact (transport_failure_network 60000 ⟨"FetchError", "connect ECONNREFUSED"⟩).1 (by decide)
  · exact ((transport_failure_network 60000
      ⟨"AbortError", "The operation was aborted"⟩).2 rfl).trans (by rfl)

/-- C7 counterexample: construction with an empty credential throws a
ValidationError — the same error kind the classifier raises for a 422
response during a call — not a Configuration kind distinct from the
runtime error kinds. -/
theorem construction_error_kind_counterexample :
    mkRailScore ⟨"", none, none⟩
      = .error (.validationError (Json.str "API key is required") none)
    ∧ errKind (RailScoreError.validationError (Json.str "API key is required") none)
        = errKind (handleError 422
            (some (Json.obj [("message", Json.str "Invalid content")])) "Unprocessable Entity") :=
  ⟨rfl, rfl⟩

/-- C7 amended: construction with an empty credential synchronously throws
a ValidationError (the Validation kind also used at runtime, not a
distinct Configuration kind); construction with a non-empty credential
does not throw. -/
theorem construction_requires_apiKey (config : RailScoreConfig) :
    (config.apiKey = "" →
        mkRailScore config = .error (.validationError (Json.str "API key is required") none))
    ∧ (config.apiKey ≠ "" → ∃ c, mkRailScore config = .ok c) := by
  constructor <;> intro h
  · simp [mkRailScore, h]
  · exact ⟨{ apiKey := config.apiKey,
             baseUrl := jsOrStr config.baseUrl "https://api.responsibleailabs.ai",
             timeout := jsOrNum config.timeout 60000 }, by simp [mkRailScore, h]⟩

/-- C7 amended witness: the empty credential throws, a normal credential
does not. -/
theorem construction_requires_apiKey_witness :
    mkRailScore ⟨"", none, none⟩
      = .error (.validationError (Json.str "API key is required") none)
    ∧ ∃ c, mkRailScore ⟨"test-api-key", none, none⟩ = .ok c :=
  ⟨(construction_requires_apiKey ⟨"", none, none⟩).1 rfl,
   (construction_requires_apiKey ⟨"test-api-key", none, none⟩).2 (by decide)⟩

/-- C8: Generation.generate fails fast — an empty or whitespace-only
prompt, a targetScore outside [0,10], a maxIterations outside [1,10] or a
temperature outside [0,2] raises the corresponding Validation error
locally, with a result independent of the network outcome (zero side
effects); when all validations pass, no local validation error is raised
and the call proceeds to the network request. -/
theorem generate_fail_fast (prompt : String) (options : Option GenerationOptions)
    (t : Rat) (o o' : FetchOutcome) :
    (prompt = "" ∨ (jsTrim prompt).length = 0 →
        generate prompt options t o
          = .error (.validationError (Json.str "Prompt cannot be empty") none))
    ∧ (¬(prompt = "" ∨ (jsTrim prompt).length = 0) →
        optOutside (options.bind GenerationOptions.targetScore) 0 10 = true →
        generate prompt options t o
          = .error (.validationError (Json.str "Target score must be between 0 and 10") none))
    ∧ (¬(prompt = "" ∨ (jsTrim prompt).length = 0) →
        optOutside (options.bind GenerationOptions.targetScore) 0 10 = false →
        optOutside (options.bind GenerationOptions.maxIterations) 1 10 = true →
        generate prompt options t o
          = .error (.validationError (Json.str "Max iterations must be between 1 and 10") none))
    ∧ (¬(prompt = "" ∨ (jsTrim prompt).length = 0) →
        optOutside (options.bind GenerationOptions.targetScore) 0 10 = false →
        optOutside (options.bind GenerationOptions.maxIterations) 1 10 = false →
        optOutside (options.bind GenerationOptions.temperature) 0 2 = true →
        generate prompt options t o
          = .error (.validationError (Json.str "Temperature must be between 0 and 2") none))
    ∧ ((prompt = "" ∨ (jsTrim prompt).length = 0)
        ∨ optOutside (options.bind GenerationOptions.targetScore) 0 10 = true
        ∨ optOutside (options.bind GenerationOptions.maxIterations) 1 10 = true
        ∨ optOutside (options.bind GenerationOptions.temperature) 0 2 = true →
        generate prompt options t o = generate prompt options t o')
    ∧ (¬(prompt = "" ∨ (jsTrim prompt).length = 0) →
        optOutside (options.bind GenerationOptions.targetScore) 0 10 = false →
        optOutside (options.bind GenerationOptions.maxIterations) 1 10 = false →
        optOutside (options.bind GenerationOptions.temperature) 0 2 = false →
        generate prompt options t o = request t o) := by
  refine ⟨?_, ?_, ?_, ?_, ?_, ?_⟩
  · intro h
    unfold generate
    rw [if_pos h]
  · intro h ht
    unfold generate
    rw [if_neg h, if_pos ht]
  · intro h ht hm
    unfold generate
    rw [if_neg h, if_neg (by simp [ht]), if_pos hm]
  · intro h ht hm htemp
    unfold generate
    rw [if_neg h, if_neg (by simp [ht]), if_neg (by simp [hm]), if_pos htemp]
  · intro h
    unfold generate
    split_ifs with h1 h2 h3 h4
    · rfl
    · rfl
    · rfl
    · rfl
    · rcases h with h | h | h | h
      · exact absurd h h1
      · exact absurd h h2
      · exact absurd h h3
      · exact absurd h h4
  · intro h ht hm htemp
    unfold generate
    rw [if_neg h, if_neg (by simp [ht]), if_neg (by simp [hm]), if_neg (by simp [htemp])]

/-- C8 witness: a whitespace-only prompt fails locally whatever the
network would do; an out-of-range targetScore fails locally; a valid call
proceeds to the network request. -/
theorem generate_fail_fast_witness :
    generate "   " none 60000 (FetchOutcome.reject ⟨"X", "y"⟩)
      = .error (.validationError (Json.str "Prompt cannot be empty") none)
    ∧ generate "Write a privacy policy" (some { targetScore := some 11 }) 60000
        (FetchOutcome.reject ⟨"X", "y"⟩)
      = .error (.validationError (Json.str "Target score must be between 0 and 10") none)
    ∧ generate "Write a privacy policy" none 60000 (FetchOutcome.reject ⟨"X", "y"⟩)
      = request 60000 (FetchOutcome.reject ⟨"X", "y"⟩) := by
  refine ⟨?_, ?_, ?_⟩
  · exact (generate_fail_fast "   " none 60000 (FetchOutcome.reject ⟨"X", "y"⟩)
      (FetchOutcome.reject ⟨"X", "y"⟩)).1 (Or.inr (by decide))
  · exact (generate_fail_fast "Write a privacy policy" (some { targetScore := some 11 })
      60000 (FetchOutcome.reject ⟨"X", "y"⟩) (FetchOutcome.reject ⟨"X", "y"⟩)).2.1
      (by decide) (by decide)
  · exact (generate_fail_fast "Write a privacy policy" none 60000
      (FetchOutcome.reject ⟨"X", "y"⟩) (FetchOutcome.reject ⟨"X", "y"⟩)).2.2.2.2.2
      (by decide) rfl rfl rfl

/-- C9: the classifier is a pure function of the (status, parsed body,
status text) triple — two calls on equal inputs yield equal classified
error values (same constructor, same message, same extracted fields). -/
theorem classify_pure (status status' : Nat) (body body' : Option Json) (st st' : String)
    (hs : status = status') (hb : body = body') (ht : st = st') :
    handleError status body st = handleError status' body' st' := by
  subst hs
  subst hb
  subst ht
  rfl

/-- C9 witness: two classifications of the spec's scenario A input are
equal. -/
theorem classify_pure_witness :
    handleError 401 (some (Json.obj [("message", Json.str "Invalid API key")])) "Unauthorized"
      = handleError 401 (some (Json.obj [("message", Json.str "Invalid API key")])) "Unauthorized" :=
  classify_pure 401 401
    (some (Json.obj [("message", Json.str "Invalid API key")]))
    (some (Json.obj [("message", Json.str "Invalid API key")]))
    "Unauthorized" "Unauthorized" rfl rfl rfl

/-- C10: construction defaults by falsiness, not by absence — a config
with timeout 0 (or baseUrl the empty string) yields a client with the
default timeout 60000 (or the default production base URL), exactly as if
the field had been omitted. -/
theorem config_defaults_by_falsiness (config : RailScoreConfig) (c : RailScoreClient) :
    (config.timeout = some 0 → mkRailScore config = .ok c → c.timeout = 60000)
    ∧ (config.baseUrl = some "" → mkRailScore config = .ok c →
        c.baseUrl = "https://api.responsibleailabs.ai")
    ∧ mkRailScore { config with timeout := some 0 }
        = mkRailScore { config with timeout := none }
    ∧ mkRailScore { config with baseUrl := some "" }
        = mkRailScore { config with baseUrl := none } := by
  refine ⟨?_, ?_, ?_, ?_⟩
  · intro ht h
    by_cases hk : config.apiKey = ""
    · simp [mkRailScore, hk] at h
    · simp [mkRailScore, hk] at h
      rw [← h]
      simp [jsOrNum, ht]
  · intro hb h
    by_cases hk : config.apiKey = ""
    · simp [mkRailScore, hk] at h
    · simp [mkRailScore, hk] at h
      rw [← h]
      simp [jsOrStr, hb]
  · by_cases hk : config.apiKey = "" <;> simp [mkRailScore, hk, jsOrNum]
  · by_cases hk : config.apiKey = "" <;> simp [mkRailScore, hk, jsOrStr]

/-- C10 witness: a config with timeout 0 and baseUrl "" constructs a
client carrying the default timeout and base URL. -/
theorem config_defaults_by_falsiness_witness :
    RailScoreClient.timeout ⟨"test-api-key", "https://api.responsibleailabs.ai", 60000⟩ = 60000
    ∧ RailScoreClient.baseUrl ⟨"test-api-key", "https://api.responsibleailabs.ai", 60000⟩
        = "https://api.responsibleailabs.ai" :=
  ⟨(config_defaults_by_falsiness ⟨"test-api-key", some "", some 0⟩
      ⟨"test-api-key", "https://api.responsibleailabs.ai", 60000⟩).1 rfl rfl,
   (config_defaults_by_falsiness ⟨"test-api-key", some "", some 0⟩
      ⟨"test-api-key", "https://api.responsibleailabs.ai", 60000⟩).2.1 rfl rfl⟩
